import Mathlib

/-!
Verification of the FlowAgent front-end streaming-session engine
(`Personal-Work-Assistant`): a shallow embedding, in Lean, of the
`SSEClient` connection state machine, the `ConversationManager` store,
the workflow-snapshot persistence layer, and the error-handling
callbacks of the `App` controller, together with theorems settling the
specification claims about them.

Conventions of the embedding:
* JavaScript object state becomes explicit Lean structures; every
  method becomes a pure function from state (plus inputs) to state.
* `undefined`/missing object fields become `Option`; JavaScript string
  truthiness (`'' ` is falsy) is made explicit in the conditions.
* Callback invocations and connection openings are recorded as an
  output list, so "callback fires" is a statement about outputs.
* Timestamps and generated identifiers are passed in explicitly.
* A JavaScript `TypeError` (e.g. calling `.push` on `undefined`)
  is modelled by `Except.error`.
-/

namespace FlowAgent

/-! ## SSEClient (src/unnamed/part_000, lines 6-157)

State of one `SSEClient` object.  `hasEventSource` models
`this.eventSource !== null`; `pendingTimers` counts retry timers
scheduled by the `onerror` handler (`setTimeout(() => this.connect(...),
this.retryDelay)`) that have not yet fired; `abort()` does not cancel
them. -/
structure SSEState where
  hasEventSource : Bool
  isConnected : Bool
  retryCount : Nat
  isAborted : Bool
  isCompleted : Bool
  errorHandled : Bool
  pendingTimers : Nat
deriving DecidableEq, Repr

/-- `this.maxRetries = 3` (constructor). -/
def maxRetries : Nat := 3

/-- `this.retryDelay = 2000` milliseconds (constructor). -/
def retryDelay : Nat := 2000

/-- Constructor state of `SSEClient` (fields set in `constructor()`;
`errorHandled` starts undefined, i.e. falsy). -/
def initSSE : SSEState :=
  { hasEventSource := false, isConnected := false, retryCount := 0,
    isAborted := false, isCompleted := false, errorHandled := false,
    pendingTimers := 0 }

/-- Observable outputs of the client: caller-supplied callbacks firing
and connections being opened or scheduled. -/
inductive SSEOut
  | onOpen
  | onError
  | opened
  | retryScheduled
deriving DecidableEq, Repr

/-- `disconnect()`: closes and nulls `this.eventSource` when present. -/
def disconnect (s : SSEState) : SSEState :=
  if s.hasEventSource then
    { s with hasEventSource := false, isConnected := false }
  else s

/-- `abort()`: sets the four guard flags and tears the transport down.
It does not cancel a pending retry timer. -/
def abortStep (s : SSEState) : SSEState :=
  disconnect { s with isAborted := true, isCompleted := true,
                      retryCount := maxRetries, errorHandled := true }

/-- `connect(query, callbacks, options)`: aborts any existing
connection, resets all flags (including `retryCount := 0`), and opens a
new `EventSource`.  The query/callbacks/options tuple is the same
throughout one retry chain, so it is left implicit. -/
def connectStep (s : SSEState) : SSEState × List SSEOut :=
  let s1 := if s.hasEventSource then abortStep s else s
  ({ s1 with isAborted := false, isCompleted := false, retryCount := 0,
             errorHandled := false, hasEventSource := true },
   [SSEOut.opened])

/-- `eventSource.onopen`: marks connected, resets the retry counter,
invokes `callbacks.onOpen`. -/
def onopenStep (s : SSEState) : SSEState × List SSEOut :=
  ({ s with isConnected := true, retryCount := 0 }, [SSEOut.onOpen])

/-- `eventSource.onerror`: the transport-error decision, in source
order: aborted → nothing; completed → tear down; retry budget
exhausted → `onError` once and tear down; otherwise increment
`retryCount` and schedule a reconnect after `retryDelay`. -/
def onerrorStep (s : SSEState) : SSEState × List SSEOut :=
  let s := { s with isConnected := false }
  if s.isAborted then (s, [])
  else if s.isCompleted then (disconnect s, [])
  else if s.retryCount ≥ maxRetries then (disconnect s, [SSEOut.onError])
  else ({ s with retryCount := s.retryCount + 1,
                 pendingTimers := s.pendingTimers + 1 },
        [SSEOut.retryScheduled])

/-- A scheduled retry timer fires: it unconditionally calls
`this.connect(query, callbacks, options)` again (no flag is
consulted). -/
def timerFireStep (s : SSEState) : SSEState × List SSEOut :=
  if s.pendingTimers = 0 then (s, [])
  else connectStep { s with pendingTimers := s.pendingTimers - 1 }

/-- The events the client state machine reacts to.  Transport signals
(`openSignal`, `errorSignal`) can only be delivered by an existing
`EventSource`; a fired timer is an independent event. -/
inductive SSEEvent
  | connect
  | openSignal
  | errorSignal
  | abortCall
  | timerFire
deriving DecidableEq, Repr

/-- One step of the client state machine with its outputs. -/
def sseStep (s : SSEState) : SSEEvent → SSEState × List SSEOut
  | SSEEvent.connect => connectStep s
  | SSEEvent.openSignal => if s.hasEventSource then onopenStep s else (s, [])
  | SSEEvent.errorSignal => if s.hasEventSource then onerrorStep s else (s, [])
  | SSEEvent.abortCall => (abortStep s, [])
  | SSEEvent.timerFire => timerFireStep s

/-- Run a sequence of events, accumulating outputs in order. -/
def sseRun (s : SSEState) : List SSEEvent → SSEState × List SSEOut
  | [] => (s, [])
  | e :: es =>
      let p := sseStep s e
      let q := sseRun p.1 es
      (q.1, p.2 ++ q.2)

/-- The state reached when a transport error schedules a retry and the
caller then aborts: the retry timer is still pending. -/
def afterAbortWithPendingTimer : SSEState :=
  (sseRun initSSE [SSEEvent.connect, SSEEvent.errorSignal, SSEEvent.abortCall]).1

/-- The 4-consecutive-transport-error scenario: the initial `connect`,
then each error's retry timer fires (calling `connect` again) before
the next transport error. -/
def fourErrorTrace : List SSEEvent :=
  [SSEEvent.connect,
   SSEEvent.errorSignal, SSEEvent.timerFire,
   SSEEvent.errorSignal, SSEEvent.timerFire,
   SSEEvent.errorSignal, SSEEvent.timerFire,
   SSEEvent.errorSignal, SSEEvent.timerFire]

/-! ## ConversationManager (src/unnamed/part_000, lines 159-277)

Conversations are JavaScript objects in an id-keyed object; fields that
some code paths leave absent (`createdAt`, `reportVersions`) are
`Option`.  The persisted `localStorage` blob is mirrored by `storage`;
`saveToStorage` copies the in-memory map into it. -/

structure Message where
  role : String
  content : String
  msgType : String
  msgId : String
  timestamp : String
deriving DecidableEq, Repr

structure ReportVersion where
  content : String
  timestamp : String
  operation : String
deriving DecidableEq, Repr

structure Conversation where
  id : String
  title : String
  createdAt : Option String
  updatedAt : String
  messages : List Message
  currentReport : String
  reportVersions : Option (List ReportVersion)
deriving DecidableEq, Repr

/-- In-memory conversation map (association list in insertion order,
as JavaScript object properties) plus the persisted blob. -/
structure CMState where
  conversations : List (String × Conversation)
  storage : Option (List (String × Conversation))
deriving DecidableEq, Repr

/-- Overwrite-or-append a keyed entry, preserving insertion order as a
JavaScript object property assignment does. -/
def setConv : List (String × Conversation) → String → Conversation →
    List (String × Conversation)
  | [], k, c => [(k, c)]
  | (k', c') :: rest, k, c =>
      if k' = k then (k, c) :: rest else (k', c') :: setConv rest k c

/-- `saveToStorage()`: serialize the whole map into the blob. -/
def saveToStorage (st : CMState) : CMState :=
  { st with storage := some st.conversations }

/-- `createConversation(title)`: truncated title, fresh timestamps,
empty message and version lists.  `idStr` and `now` stand for
`'conv_' + Date.now().toString(36)` and `new Date().toISOString()`. -/
def createConversation (title idStr now : String) : Conversation :=
  { id := idStr,
    title := (title.take 30) ++ (if title.length > 30 then "..." else ""),
    createdAt := some now,
    updatedAt := now,
    messages := [],
    currentReport := "",
    reportVersions := some [] }

/-- `addMessage(conversationId, message)`: append a message with a
generated id/timestamp, keep at most the last 20 messages, persist.  A
missing conversation id makes the whole call a no-op. -/
def addMessage (st : CMState) (convId role content msgType msgId now : String) :
    CMState :=
  match st.conversations.lookup convId with
  | none => st
  | some conv =>
      let msgs := conv.messages ++
        [{ role := role, content := content, msgType := msgType,
           msgId := msgId, timestamp := now }]
      let msgs := if msgs.length > 20 then msgs.drop (msgs.length - 20) else msgs
      let conv2 := { conv with messages := msgs }
      saveToStorage { st with conversations := setConv st.conversations convId conv2 }

/-- `updateReport(conversationId, report, operationType)`: when the
previous `currentReport` is a non-empty string it is pushed into
`reportVersions` (kept to the last 5) before the new report replaces
it.  `conversation.reportVersions.push(...)` on an entry whose
`reportVersions` field is absent is a JavaScript `TypeError`, modelled
as `Except.error`. -/
def updateReport (st : CMState) (convId report operationType now : String) :
    Except String CMState :=
  match st.conversations.lookup convId with
  | none => Except.ok st
  | some conv =>
      if conv.currentReport ≠ "" then
        match conv.reportVersions with
        | none => Except.error "TypeError: push of undefined reportVersions"
        | some vs =>
            let vs := vs ++
              [{ content := conv.currentReport, timestamp := now,
                 operation := operationType }]
            let vs := if vs.length > 5 then vs.drop (vs.length - 5) else vs
            let conv2 := { conv with currentReport := report, reportVersions := some vs }
            Except.ok (saveToStorage
              { st with conversations := setConv st.conversations convId conv2 })
      else
        let conv2 := { conv with currentReport := report }
        Except.ok (saveToStorage
          { st with conversations := setConv st.conversations convId conv2 })

/-- A history-list entry as captured by the delete/undo flow
(`getHistory()` projects a conversation to
`{id, query, report, timestamp, status}`; `messages` is absent
there). -/
structure HistoryItem where
  hid : Option String
  query : String
  report : String
  timestamp : String
  messages : Option (List Message)
deriving DecidableEq, Repr

/-- `restoreConversation(item)`: re-inserts the captured item as a
conversation object carrying only `id`, `title`, `currentReport`,
`updatedAt` and `messages` — `createdAt` and `reportVersions` are left
absent. -/
def restoreConversation (st : CMState) (item : HistoryItem) : CMState :=
  match item.hid with
  | none => st
  | some i =>
      let conv : Conversation :=
        { id := i, title := item.query, createdAt := none,
          updatedAt := item.timestamp, messages := item.messages.getD [],
          currentReport := item.report, reportVersions := none }
      saveToStorage { st with conversations := setConv st.conversations i conv }

/-- Successive `updateReport` calls (operation `generate`, one shared
clock value) on one conversation, stopping at the first exception. -/
def updateReport7 (st : CMState) (convId : String) : List String → Except String CMState
  | [] => Except.ok st
  | r :: rs =>
      match updateReport st convId r "generate" "t" with
      | Except.error e => Except.error e
      | Except.ok st1 => updateReport7 st1 convId rs

/-! ## App error callbacks (src/unnamed/part_000, lines 1369-1395 and
1892-1901)

The fragment of `App` state the two application-level `error` callbacks
touch.  `surfaced` counts executions of the error-surfacing path (error
message or error step rendered plus status set to failed). -/

structure AppErrState where
  appErrorHandled : Bool
  surfaced : Nat
  sse : SSEState
  isProcessing : Bool
deriving DecidableEq, Repr

/-- The `error` callback registered by `executeChatOperation`
(lines 1369-1395): deduplicates via `this.errorHandled`, surfaces the
error once, aborts the client, and resets the processing state. -/
def chatErrorCb (s : AppErrState) : AppErrState :=
  if s.appErrorHandled then s
  else
    { s with appErrorHandled := true, surfaced := s.surfaced + 1,
             sse := abortStep s.sse, isProcessing := false }

/-- The `error` callback registered by `handleSubmit` and
`connectWorkflowStream` (lines 1892-1901 and 592-600): only the
`sseClient.isAborted` flag suppresses it; otherwise it renders an error
step and sets the failed status on every occurrence. -/
def mainErrorCb (s : AppErrState) : AppErrState :=
  if s.sse.isAborted then s
  else { s with surfaced := s.surfaced + 1 }

/-- A fresh controller state right after a connection was opened. -/
def freshAppErrState : AppErrState :=
  { appErrorHandled := false, surfaced := 0,
    sse := { initSSE with hasEventSource := true }, isProcessing := true }

/-! ## plannerUpdate callback (src/unnamed/part_000, lines 551-558 and
1835-1845)

The payload's `plan` field as JSON: absent/falsy, an array, or some
other truthy non-array value.  A JavaScript empty array is truthy, so
the guard `data && data.plan && Array.isArray(data.plan)` accepts
it. -/

inductive PlanField
  | missing
  | arr (steps : List String)
  | nonArray (v : String)
deriving DecidableEq, Repr

/-- `Array.isArray(data.plan)` combined with the truthiness of
`data.plan` (`missing` is falsy, an array — even empty — is truthy). -/
def isPlanArray : PlanField → Bool
  | PlanField.arr _ => true
  | _ => false

structure PlannerPayload where
  plan : PlanField
deriving DecidableEq, Repr

/-- The fragment of `App` state the `plannerUpdate` callback touches:
`workflowData.planner`, the rendered planner steps
(`addPlannerStep`), and the stage transitions (`addTransitionStep`). -/
structure PlannerUIState where
  plannerData : Option PlannerPayload
  renderedPlannerSteps : Nat
  transitions : Nat
deriving DecidableEq, Repr

/-- The `plannerUpdate` callback: always records the payload into
`workflowData.planner`; renders a planner step and advances the stage
exactly when the guard accepts the `plan` field; otherwise only logs. -/
def plannerUpdateCb (st : PlannerUIState) (data : PlannerPayload) : PlannerUIState :=
  let st := { st with plannerData := some data }
  if isPlanArray data.plan then
    { st with renderedPlannerSteps := st.renderedPlannerSteps + 1,
              transitions := st.transitions + 1 }
  else st

/-! ## Workflow snapshot persistence (src/unnamed/part_000, lines
334-375, 404-456, 627-717)

A rendered `.workflow-step` element, as produced by `addWorkflowStep`
(lines 2101-2130): no `data-type`/`data-stage` attribute is set, and the
children carry classes `step-number <nodeType>`, `step-icon`,
`step-title`, `step-content` and `status-icon`.  `childNodes` pairs each
child's class attribute with its text content (the step counter digits
in the `step-number` child are not tracked).  Arguments can be
`undefined` (restore passes fields absent from the saved JSON), which
string interpolation renders as the text `undefined`. -/

/-- JavaScript template-literal interpolation of a possibly-undefined
string. -/
def jsStr : Option String → String
  | none => "undefined"
  | some s => s

structure StepElem where
  datasetType : Option String
  datasetStage : Option String
  childNodes : List (List String × String)
deriving DecidableEq, Repr

/-- `addWorkflowStep(type, icon, title, content, nodeType)` as the
element it leaves in the DOM; each child is its list of class tokens
paired with its text content.  The `stepType` argument is interpolated
only into the element's HTML id, never into a `data-` attribute, hence
unused here. -/
def addWorkflowStepElem (stepType icon title content nodeType : Option String) :
    StepElem :=
  { datasetType := none,
    datasetStage := none,
    childNodes :=
      [(["step-number", jsStr nodeType], ""),
       (["step-icon"], jsStr icon),
       (["step-title"], jsStr title),
       (["step-content"], jsStr content),
       (["status-icon"], "⏳")] }

/-- `el.querySelector('.cls')?.textContent`: first child whose class
attribute contains the class token. -/
def querySelectorText (el : StepElem) (cls : String) : Option String :=
  (el.childNodes.find? (fun p => p.1.contains cls)).map (fun p => p.2)

/-- `x?.textContent || ''`. -/
def textOrEmpty : Option String → String
  | none => ""
  | some s => s

/-- `a || b` on strings (the empty string is falsy). -/
def jsOr (a b : String) : String := if a = "" then b else a

/-- One entry of the snapshot's `workflowSteps` array, as
`saveWorkflowState` builds it from a rendered element (lines 671-680);
`Option` fields are dropped by `JSON.stringify` when absent. -/
structure SavedStep where
  stepType : Option String
  icon : String
  title : String
  description : String
  stage : Option String
deriving DecidableEq, Repr

/-- The per-element scrape in `saveWorkflowState`: `el.dataset.type`,
`.step-icon`/`.step-title`/`.step-description` text contents, and
`el.dataset.stage`. -/
def scrapeStep (el : StepElem) : SavedStep :=
  { stepType := el.datasetType,
    icon := textOrEmpty (querySelectorText el "step-icon"),
    title := textOrEmpty (querySelectorText el "step-title"),
    description := textOrEmpty (querySelectorText el "step-description"),
    stage := el.datasetStage }

/-- The per-step replay in `restoreWorkflowDisplay` (line 652):
`addWorkflowStep(step.type, step.icon, step.title,
step.description || step.content || '', step.stage)`, where the saved
entries have no `content` field. -/
def restoreStepElem (s : SavedStep) : StepElem :=
  addWorkflowStepElem s.stepType (some s.icon) (some s.title)
    (some (jsOr s.description "")) s.stage

/-- The snapshot payload written by `saveWorkflowState` (lines 682-692);
`workflowData` is represented by its `report` component, the only part
`restoreWorkflowDisplay` re-renders. -/
structure Snapshot where
  queryInput : String
  selectedTemplate : Option String
  selectedDocument : Option String
  workflowReport : Option String
  isProcessing : Bool
  conversationId : Option String
  operationType : String
  workflowSteps : List SavedStep
  timestamp : Nat
deriving DecidableEq, Repr

/-- The fragment of `App` state that the snapshot layer reads and
writes. -/
structure AppUI where
  queryValue : String
  selectedTemplate : Option String
  selectedDocument : Option String
  currentConvId : Option String
  displayedSteps : List StepElem
  isProcessing : Bool
  workflowReport : Option String
  operationType : String
deriving DecidableEq, Repr

/-- The two durable stores: the tab-scoped `interruptedWorkflow` key in
`sessionStorage` and the origin-scoped `interruptedWorkflow_backup` key
in `localStorage`, holding the parsed snapshot when present. -/
structure WorkflowStorage where
  sessionStore : Option Snapshot
  localStore : Option Snapshot
deriving DecidableEq, Repr

/-- `clearWorkflowStorage()` (lines 372-375): removes both keys. -/
def clearWorkflowStorage (s : WorkflowStorage) : WorkflowStorage :=
  { s with sessionStore := none, localStore := none }

/-- `saveWorkflowState()` (lines 666-717): a no-op unless processing or
holding unsaved input; otherwise scrapes the rendered step list and
writes the same snapshot to both stores. -/
def saveWorkflowState (app : AppUI) (storage : WorkflowStorage) (now : Nat) :
    WorkflowStorage :=
  if ¬app.isProcessing ∧ app.queryValue = "" then storage
  else
    let snap : Snapshot :=
      { queryInput := app.queryValue,
        selectedTemplate := app.selectedTemplate,
        selectedDocument := app.selectedDocument,
        workflowReport := app.workflowReport,
        isProcessing := app.isProcessing,
        conversationId := app.currentConvId,
        operationType := app.operationType,
        workflowSteps := app.displayedSteps.map scrapeStep,
        timestamp := now }
    { sessionStore := some snap, localStore := some snap }

/-- The element `addReportStep` appends when `restoreWorkflowDisplay`
finds `state.workflowData?.report` (lines 658-662, 2258-2266). -/
def reportStepElem : StepElem :=
  addWorkflowStepElem (some "report") (some "📄") (some "报告生成完成")
    (some "结构化报告已生成，点击下方按钮查看或导出") (some "reporter")

/-- `restoreWorkflowState(state)` followed by its call to
`restoreWorkflowDisplay` (lines 404-456, 627-663): repopulates input and
selections from the snapshot, unconditionally clears both snapshot
stores, and re-renders the saved step list (plus a report step when the
snapshot carries a report). -/
def restoreWorkflowState (app : AppUI) (storage : WorkflowStorage)
    (snap : Snapshot) : AppUI × WorkflowStorage :=
  let app := if snap.queryInput ≠ "" then { app with queryValue := snap.queryInput }
             else app
  let app := match snap.selectedTemplate with
             | some t => { app with selectedTemplate := some t }
             | none => app
  let app := match snap.selectedDocument with
             | some d => { app with selectedDocument := some d }
             | none => app
  let app := { app with workflowReport := snap.workflowReport }
  let storage := clearWorkflowStorage storage
  let app := match snap.conversationId with
             | some c => { app with currentConvId := some c }
             | none => app
  let steps := snap.workflowSteps.map restoreStepElem
  let steps := steps ++ (match snap.workflowReport with
                         | some _ => [reportStepElem]
                         | none => [])
  ({ app with displayedSteps := steps }, storage)

/-- Outcome of `checkAndRestoreInterruptedWorkflow()` (lines 334-369). -/
inductive RestoreCheck
  | offered (snap : Snapshot)
  | nothingFound
  | invalidCleared
deriving DecidableEq, Repr

/-- `checkAndRestoreInterruptedWorkflow()`: reads the tab-scoped store
first, falling back to the origin-scoped one; a payload with neither
query text nor an active-processing flag is discarded and both stores
cleared; otherwise the snapshot is offered for restoration. -/
def checkAndRestoreInterruptedWorkflow (storage : WorkflowStorage) :
    RestoreCheck × WorkflowStorage :=
  let found := match storage.sessionStore with
               | some s => some s
               | none => storage.localStore
  match found with
  | none => (RestoreCheck.nothingFound, storage)
  | some snap =>
      if snap.queryInput = "" ∧ snap.isProcessing = false then
        (RestoreCheck.invalidCleared, clearWorkflowStorage storage)
      else
        (RestoreCheck.offered snap, storage)

/-- An in-flight display log holding one intent-analysis step, as the
live `intentAnalysis` callback renders it. -/
def liveIntentStep : StepElem :=
  addWorkflowStepElem (some "intent") (some "I") (some "intentTitle")
    (some "intentDetail") (some "intent")

/-- An in-flight controller state: mid-processing, one rendered step,
a chosen template. -/
def liveApp : AppUI :=
  { queryValue := "weekly report", selectedTemplate := some "tmpl1",
    selectedDocument := none, currentConvId := some "c1",
    displayedSteps := [liveIntentStep], isProcessing := true,
    workflowReport := none, operationType := "generate" }

/-- The controller state of a freshly loaded page. -/
def freshApp : AppUI :=
  { queryValue := "", selectedTemplate := none, selectedDocument := none,
    currentConvId := none, displayedSteps := [], isProcessing := false,
    workflowReport := none, operationType := "generate" }

/-- Snapshot `liveApp`, then restore the saved snapshot into a freshly
loaded page, as the reload flow does. -/
def roundTrippedApp : AppUI :=
  match (saveWorkflowState liveApp { sessionStore := none, localStore := none } 7).sessionStore with
  | none => freshApp
  | some snap =>
      (restoreWorkflowState freshApp
        (saveWorkflowState liveApp { sessionStore := none, localStore := none } 7)
        snap).1

end FlowAgent

namespace FlowAgent

/-- Claim C1: after `abort()` has run, advancing time past a pending
retry delay is claimed to produce zero further callback invocations and
open no new connection.  Evaluating the code at the failing input
refutes this: from the reachable aborted state with one pending retry
timer, the timer fires, `connect` runs unguarded (clearing `isAborted`
and opening a fresh `EventSource`), and the subsequent transport open
signal invokes `onOpen` again. -/
theorem abort_pending_timer_reopens_connection :
    afterAbortWithPendingTimer.isAborted = true ∧
    afterAbortWithPendingTimer.pendingTimers = 1 ∧
    (sseRun afterAbortWithPendingTimer [SSEEvent.timerFire, SSEEvent.openSignal]).2
      = [SSEOut.opened, SSEOut.onOpen] ∧
    (sseRun afterAbortWithPendingTimer [SSEEvent.timerFire, SSEEvent.openSignal]).1.isAborted
      = false ∧
    (sseRun afterAbortWithPendingTimer [SSEEvent.timerFire, SSEEvent.openSignal]).1.isConnected
      = true := by
  decide

/-- Claim C2: with `maxRetries = 3`, four consecutive transport errors
are claimed to produce exactly 3 reconnect attempts and one `onError`.
Evaluating the code on that trace refutes this: every timer-fired
reconnect goes through `connect`, which resets `retryCount` to 0, so
the cap is never reached — the run opens 5 connections (the initial one
plus 4 reconnects), schedules a 4th retry, and never invokes
`onError`. -/
theorem four_errors_never_exhaust_retries :
    ((sseRun initSSE fourErrorTrace).2.count SSEOut.opened = 5) ∧
    ((sseRun initSSE fourErrorTrace).2.count SSEOut.onError = 0) ∧
    ((sseRun initSSE fourErrorTrace).2.count SSEOut.retryScheduled = 4) ∧
    (sseRun initSSE fourErrorTrace).1.retryCount = 0 ∧
    (sseRun initSSE fourErrorTrace).1.isConnected = false := by
  decide

/-- Claim C9, counterexample: `retryCount` is claimed to be
monotonically non-decreasing within a session, but a transport error
followed by a successful reconnect open signal decreases it from 1 back
to 0 (`onopen` sets `this.retryCount = 0`). -/
theorem retryCount_decreases_on_open :
    ((sseRun initSSE [SSEEvent.connect, SSEEvent.errorSignal]).1.retryCount = 1) ∧
    ((sseRun initSSE [SSEEvent.connect, SSEEvent.errorSignal, SSEEvent.openSignal]).1.retryCount
      = 0) := by
  decide

/-- Claim C9, amended: `retryCount` never decreases across
transport-error handling, and never across `abort()` on states
respecting the `retryCount ≤ maxRetries` bound; it is reset to 0 by
`connect` (including every timer-fired reconnect) and by a successful
open signal. -/
theorem retryCount_monotone_except_resets (s : SSEState)
    (h : s.retryCount ≤ maxRetries) :
    s.retryCount ≤ (sseStep s SSEEvent.errorSignal).1.retryCount ∧
    s.retryCount ≤ (sseStep s SSEEvent.abortCall).1.retryCount ∧
    (sseStep s SSEEvent.connect).1.retryCount = 0 ∧
    (s.hasEventSource = true → (sseStep s SSEEvent.openSignal).1.retryCount = 0) := by
  refine ⟨?_, ?_, ?_, ?_⟩
  · simp only [sseStep, onerrorStep, disconnect]
    split_ifs <;> simp
  · simp only [sseStep, abortStep, disconnect]
    split_ifs <;> simpa using h
  · simp only [sseStep, connectStep]
  · intro hs
    simp [sseStep, hs, onopenStep]

/-- Witness for the amended C9 theorem at the constructor state. -/
theorem retryCount_monotone_except_resets_witness :
    initSSE.retryCount ≤ maxRetries ∧
    (initSSE.retryCount ≤ (sseStep initSSE SSEEvent.errorSignal).1.retryCount ∧
     initSSE.retryCount ≤ (sseStep initSSE SSEEvent.abortCall).1.retryCount ∧
     (sseStep initSSE SSEEvent.connect).1.retryCount = 0 ∧
     (initSSE.hasEventSource = true →
       (sseStep initSSE SSEEvent.openSignal).1.retryCount = 0)) :=
  ⟨by decide, retryCount_monotone_except_resets initSSE (by decide)⟩

/-- Claim C4: on a freshly created conversation, seven successive
`updateReport` calls with non-empty reports leave exactly the five most
recent superseded reports in `reportVersions` (the first report was
evicted) and the seventh report as `currentReport`. -/
theorem updateReport_caps_versions_at_five
    (q cid : String) (rest : List (String × Conversation))
    (stor : Option (List (String × Conversation)))
    (r1 r2 r3 r4 r5 r6 r7 : String)
    (h1 : r1 ≠ "") (h2 : r2 ≠ "") (h3 : r3 ≠ "") (h4 : r4 ≠ "")
    (h5 : r5 ≠ "") (h6 : r6 ≠ "") :
    (updateReport7
        { conversations := (cid, createConversation q cid "t0") :: rest,
          storage := stor } cid [r1, r2, r3, r4, r5, r6, r7]).map
      (fun st => (st.conversations.lookup cid).map
        (fun c => (c.currentReport, c.reportVersions)))
      = Except.ok (some (r7, some
          [{ content := r2, timestamp := "t", operation := "generate" },
           { content := r3, timestamp := "t", operation := "generate" },
           { content := r4, timestamp := "t", operation := "generate" },
           { content := r5, timestamp := "t", operation := "generate" },
           { content := r6, timestamp := "t", operation := "generate" }])) := by
  simp [updateReport7, updateReport, createConversation, setConv,
        saveToStorage, List.lookup, Except.map, h1, h2, h3, h4, h5, h6]

/-- Witness for the C4 theorem at concrete distinct reports. -/
theorem updateReport_caps_versions_at_five_witness :
    (("R1" : String) ≠ "" ∧ ("R2" : String) ≠ "" ∧ ("R3" : String) ≠ "" ∧
     ("R4" : String) ≠ "" ∧ ("R5" : String) ≠ "" ∧ ("R6" : String) ≠ "") ∧
    (updateReport7
        { conversations := [("c1", createConversation "weekly" "c1" "t0")],
          storage := none } "c1" ["R1", "R2", "R3", "R4", "R5", "R6", "R7"]).map
      (fun st => (st.conversations.lookup "c1").map
        (fun c => (c.currentReport, c.reportVersions)))
      = Except.ok (some ("R7", some
          [{ content := "R2", timestamp := "t", operation := "generate" },
           { content := "R3", timestamp := "t", operation := "generate" },
           { content := "R4", timestamp := "t", operation := "generate" },
           { content := "R5", timestamp := "t", operation := "generate" },
           { content := "R6", timestamp := "t", operation := "generate" }])) :=
  ⟨⟨by decide, by decide, by decide, by decide, by decide, by decide⟩,
   updateReport_caps_versions_at_five "weekly" "c1" [] none
     "R1" "R2" "R3" "R4" "R5" "R6" "R7"
     (by decide) (by decide) (by decide) (by decide) (by decide) (by decide)⟩

/-- Claim C8: an undo-restored conversation is claimed to have the
exact shape a `createConversation` entry has, so that `updateReport`
behaves identically on it.  Evaluating the code at the failing input
refutes this: `restoreConversation` leaves `reportVersions` and
`createdAt` absent, so the next `updateReport` (which must archive the
non-empty restored report) hits `undefined.push` — a `TypeError` —
while on a fresh entry both fields are present. -/
theorem restored_conversation_breaks_updateReport :
    ((restoreConversation { conversations := [], storage := none }
        { hid := some "conv_a", query := "q", report := "# R",
          timestamp := "t1", messages := none }).conversations.lookup "conv_a").map
        Conversation.reportVersions = some none ∧
    ((restoreConversation { conversations := [], storage := none }
        { hid := some "conv_a", query := "q", report := "# R",
          timestamp := "t1", messages := none }).conversations.lookup "conv_a").map
        Conversation.createdAt = some none ∧
    updateReport
        (restoreConversation { conversations := [], storage := none }
          { hid := some "conv_a", query := "q", report := "# R",
            timestamp := "t1", messages := none })
        "conv_a" "new report" "modify" "t2"
      = Except.error "TypeError: push of undefined reportVersions" ∧
    (createConversation "q" "conv_a" "t0").reportVersions = some [] ∧
    (createConversation "q" "conv_a" "t0").createdAt = some "t0" := by
  refine ⟨rfl, rfl, rfl, rfl, rfl⟩

/-- Claim C10: for a conversation id absent from the collection,
`addMessage` and `updateReport` are total no-ops — no exception, and
both the in-memory map and the persisted blob are unchanged (the
returned state is the input state, so `saveToStorage` never ran). -/
theorem missing_conversation_total_noop (st : CMState)
    (convId role content msgType msgId rep op now : String)
    (h : st.conversations.lookup convId = none) :
    addMessage st convId role content msgType msgId now = st ∧
    updateReport st convId rep op now = Except.ok st := by
  constructor
  · simp [addMessage, h]
  · simp [updateReport, h]

/-- Witness for the C10 theorem on an empty store. -/
theorem missing_conversation_total_noop_witness :
    (List.lookup "cX" ([] : List (String × Conversation)) = none) ∧
    (addMessage { conversations := [], storage := none } "cX" "user" "hi"
        "chat" "m1" "t1" = { conversations := [], storage := none } ∧
     updateReport { conversations := [], storage := none } "cX" "r"
        "generate" "t1"
        = Except.ok { conversations := [], storage := none }) :=
  ⟨by decide,
   missing_conversation_total_noop { conversations := [], storage := none }
     "cX" "user" "hi" "chat" "m1" "r" "generate" "t1" (by decide)⟩

/-- Claim C3, counterexample: in the `handleSubmit` /
`connectWorkflowStream` sessions the registered `error` callback checks
only `sseClient.isAborted`, so the event sequence `[error, error]`
executes the error-surfacing path twice, not once. -/
theorem second_error_surfaces_again_in_main_callback :
    (mainErrorCb (mainErrorCb freshAppErrState)).surfaced = 2 := by
  decide

/-- Claim C3, amended: only the chat-operation
(`executeChatOperation`) error callback deduplicates via the
`errorHandled` flag — there `[error, error]` surfaces exactly once, the
flag is set and the client aborted; the `handleSubmit` /
`connectWorkflowStream` error callback surfaces every `error` event
again unless the client was aborted. -/
theorem chat_error_callback_dedupes (s : AppErrState)
    (h : s.appErrorHandled = false) :
    (chatErrorCb (chatErrorCb s)).surfaced = s.surfaced + 1 ∧
    (chatErrorCb (chatErrorCb s)).appErrorHandled = true ∧
    (chatErrorCb (chatErrorCb s)).sse.isAborted = true ∧
    (s.sse.isAborted = false →
      (mainErrorCb (mainErrorCb s)).surfaced = s.surfaced + 2) := by
  refine ⟨?_, ?_, ?_, ?_⟩
  · simp [chatErrorCb, h]
  · simp [chatErrorCb, h]
  · simp only [chatErrorCb, h]
    simp [abortStep, disconnect]
    split_ifs <;> simp
  · intro ha
    simp [mainErrorCb, ha]

/-- Witness for the amended C3 theorem at a fresh controller state. -/
theorem chat_error_callback_dedupes_witness :
    freshAppErrState.appErrorHandled = false ∧
    ((chatErrorCb (chatErrorCb freshAppErrState)).surfaced
        = freshAppErrState.surfaced + 1 ∧
     (chatErrorCb (chatErrorCb freshAppErrState)).appErrorHandled = true ∧
     (chatErrorCb (chatErrorCb freshAppErrState)).sse.isAborted = true ∧
     (freshAppErrState.sse.isAborted = false →
       (mainErrorCb (mainErrorCb freshAppErrState)).surfaced
         = freshAppErrState.surfaced + 2)) :=
  ⟨by decide, chat_error_callback_dedupes freshAppErrState (by decide)⟩

/-- Claim C5, counterexample: a `plannerUpdate` payload whose `plan`
list is present but empty is not dropped — an empty JavaScript array is
truthy and passes `Array.isArray`, so a planner step is rendered and
the stage transition added. -/
theorem empty_plan_list_is_rendered :
    (plannerUpdateCb { plannerData := none, renderedPlannerSteps := 0, transitions := 0 }
        { plan := PlanField.arr [] }).renderedPlannerSteps = 1 ∧
    (plannerUpdateCb { plannerData := none, renderedPlannerSteps := 0, transitions := 0 }
        { plan := PlanField.arr [] }).transitions = 1 := by
  decide

/-- Claim C5, amended: only a payload whose `plan` field is missing (or
a non-array value) is dropped: processing continues without crashing,
no planner step is rendered, and the stage does not advance — though
the raw payload is still recorded into `workflowData.planner`; an empty
plan array is accepted and rendered. -/
theorem non_array_plan_payload_dropped (st : PlannerUIState)
    (data : PlannerPayload) (h : isPlanArray data.plan = false) :
    plannerUpdateCb st data = { st with plannerData := some data } := by
  simp [plannerUpdateCb, h]

/-- Witness for the amended C5 theorem at a missing `plan` field. -/
theorem non_array_plan_payload_dropped_witness :
    isPlanArray (PlannerPayload.mk PlanField.missing).plan = false ∧
    plannerUpdateCb { plannerData := none, renderedPlannerSteps := 0, transitions := 0 }
        (PlannerPayload.mk PlanField.missing)
      = { plannerData := some (PlannerPayload.mk PlanField.missing),
          renderedPlannerSteps := 0, transitions := 0 } :=
  ⟨by decide,
   non_array_plan_payload_dropped
     { plannerData := none, renderedPlannerSteps := 0, transitions := 0 }
     (PlannerPayload.mk PlanField.missing) (by decide)⟩

/-- Claim C6: the snapshot/restore round trip is claimed to reproduce
the step-display log byte-for-byte.  Evaluating the code at the failing
input refutes this: `saveWorkflowState` reads `el.dataset.type`,
`el.dataset.stage` and `.step-description` from elements that
`addWorkflowStep` renders without `data-` attributes and with a
`.step-content` child instead, so the restored step has lost its type,
stage and description, while the query text and template/document
selection are reproduced. -/
theorem snapshot_restore_loses_step_details :
    roundTrippedApp.queryValue = liveApp.queryValue ∧
    roundTrippedApp.selectedTemplate = liveApp.selectedTemplate ∧
    roundTrippedApp.selectedDocument = liveApp.selectedDocument ∧
    querySelectorText liveIntentStep "step-content" = some "intentDetail" ∧
    roundTrippedApp.displayedSteps
      = [addWorkflowStepElem none (some "I") (some "intentTitle") (some "") none] ∧
    roundTrippedApp.displayedSteps ≠ liveApp.displayedSteps := by
  decide

/-- Claim C7: every completed `restoreWorkflowState` clears both the
tab-scoped and the origin-scoped snapshot stores, so a subsequent
`checkAndRestoreInterruptedWorkflow` finds nothing to offer. -/
theorem restore_clears_both_snapshot_stores (app : AppUI)
    (storage : WorkflowStorage) (snap : Snapshot) :
    (restoreWorkflowState app storage snap).2.sessionStore = none ∧
    (restoreWorkflowState app storage snap).2.localStore = none ∧
    (checkAndRestoreInterruptedWorkflow
        (restoreWorkflowState app storage snap).2).1
      = RestoreCheck.nothingFound := by
  simp [restoreWorkflowState, clearWorkflowStorage,
        checkAndRestoreInterruptedWorkflow]

end FlowAgent
